import Mathlib

/-!
Shallow embedding of the Ansible module library/elasticsearch_s3_repo.py.

The module manages an ElasticSearch snapshot repository backed by S3:
it probes the repository with a GET, compares the remote settings to the
desired ones, and issues at most one mutating HTTP call (POST to create or
update, DELETE to remove).

Python/JSON values that flow through the settings maps are modelled by
PyVal; HTTP traffic is modelled by an explicit Remote record that supplies
the response of each of the (at most three kinds of) requests the module
can make, and the reconciliation run returns both the Ansible outcome
(exit_json / fail_json / uncaught exception) and the ordered trace of HTTP
calls it issued.
-/

set_option autoImplicit false

/-- A Python/JSON value as it appears in the repository settings maps. -/
inductive PyVal where
  | pyStr : String → PyVal
  | pyInt : Int → PyVal
  | pyBool : Bool → PyVal
  | pyNone : PyVal
  deriving DecidableEq, Repr

/-- Python str() on the values we model: strings unchanged, ints printed,
True/False capitalised, None printed as "None". -/
def py_str : PyVal → String
  | .pyStr s => s
  | .pyInt n => toString n
  | .pyBool true => "True"
  | .pyBool false => "False"
  | .pyNone => "None"

/-- Python str.lower() on the ASCII strings that occur in the settings
values, character by character. (String.toLower is defined by well-founded
recursion and does not evaluate inside the kernel; this list-based version
does.) -/
def str_lower (s : String) : String :=
  String.mk (s.data.map Char.toLower)

/-- Python truthiness of a value, as used by the "not p[...]" checks:
None, the empty string, 0 and False are falsy. -/
def py_truthy : PyVal → Bool
  | .pyStr s => s ≠ ""
  | .pyInt n => n ≠ 0
  | .pyBool b => b
  | .pyNone => false

/-- The module parameters after AnsibleModule argument parsing
(main, lines 169-199 of the source). -/
structure ModuleParams where
  host : String
  port : Int
  bucket : PyVal
  endpoint : PyVal
  region : PyVal
  access_key : PyVal
  secret_key : PyVal
  max_retries : Int
  protocol : String
  state : String
  repo_name : String
  path_style_access : Bool
  compress : Bool
  deriving DecidableEq, Repr

/-- get_repo_url: "%s://%s:%d/_snapshot/%s" over protocol, host, port,
repo_name. -/
def get_repo_url (m : ModuleParams) : String :=
  m.protocol ++ "://" ++ m.host ++ ":" ++ toString m.port ++ "/_snapshot/" ++ m.repo_name

/-- The JSON payload built by create_repo_data: a type tag and a settings
object; settings maps are association lists in insertion order, which is
how the Python dicts behave. -/
structure RepoData where
  type_ : String
  settings : List (String × PyVal)
  deriving DecidableEq, Repr

/-- create_repo_data: the posted payload, verbatim from the parameters. -/
def create_repo_data (m : ModuleParams) : RepoData :=
  { type_ := "s3",
    settings :=
      [("bucket", m.bucket),
       ("endpoint", m.endpoint),
       ("region", m.region),
       ("access_key", m.access_key),
       ("secret_key", m.secret_key),
       ("max_retries", PyVal.pyInt m.max_retries),
       ("path_style_access", PyVal.pyBool m.path_style_access),
       ("compress", PyVal.pyBool m.compress)] }

/-- The parsed JSON body of a 200 probe response: repository name mapped to
its definition (a type tag and a settings object). -/
def RepoBody : Type := List (String × RepoData)

instance : DecidableEq RepoBody := by
  unfold RepoBody
  infer_instance

/-- A Python exception escaping or caught during the run. HTTPError (from
raise_for_status) and transport-level ConnectionError/Timeout are both
requests.exceptions.RequestException; KeyError is not. -/
inductive PyExn where
  | httpError : Nat → String → PyExn
  | transportError : String → PyExn
  | keyError : String → PyExn
  deriving DecidableEq, Repr

/-- An HTTP response to the probe GET: status code, parsed JSON body, raw
body text. -/
structure GetResp where
  status : Nat
  body : RepoBody
  raw : String
  deriving DecidableEq

/-- An HTTP response to a mutating POST/DELETE call: status code and raw
acknowledgment body. -/
structure MutResp where
  status : Nat
  raw : String
  deriving DecidableEq, Repr

/-- The outcome of issuing one HTTP request: a response from the server, or
a transport-level failure raised by the requests library. -/
inductive CallOutcome (ρ : Type) where
  | resp : ρ → CallOutcome ρ
  | transportFail : String → CallOutcome ρ
  deriving DecidableEq

/-- The environment: what the network answers to each request the run can
make (at most one GET, and then at most one POST or one DELETE). -/
structure Remote where
  getResp : CallOutcome GetResp
  postResp : CallOutcome MutResp
  deleteResp : CallOutcome MutResp

/-- Response.raise_for_status of the requests library raises exactly for
status codes in [400, 600). -/
def raises_for_status (status : Nat) : Bool :=
  400 ≤ status && status < 600

/-- Result record built by check_repo_exists. -/
structure ProbeOut where
  found : Bool
  error : Bool
  data : Option RepoBody
  deriving DecidableEq

/-- check_repo_exists on a response that arrived (source lines 113-125):
200 sets found and parses the body; a status outside [200, 404] calls
raise_for_status, which raises for 4xx/5xx, and only then sets the error
flag; 404 leaves the default record. -/
def check_repo_exists_resp (r : GetResp) : Except PyExn ProbeOut :=
  if r.status = 200 then
    .ok { found := true, error := false, data := some r.body }
  else if r.status = 404 then
    .ok { found := false, error := false, data := none }
  else if raises_for_status r.status then
    .error (.httpError r.status r.raw)
  else
    .ok { found := false, error := true, data := none }

/-- check_repo_exists including the requests.get call itself: a transport
failure in the GET propagates as an exception. -/
def check_repo_exists (net : Remote) : Except PyExn ProbeOut :=
  match net.getResp with
  | .transportFail d => .error (.transportError d)
  | .resp r => check_repo_exists_resp r

/-- One HTTP call issued during a run, with its target URL. -/
inductive HttpCall where
  | getCall : String → HttpCall
  | postCall : String → RepoData → HttpCall
  | deleteCall : String → HttpCall
  deriving DecidableEq

/-- A call is mutating when it is the create POST or the DELETE. -/
def is_mutating : HttpCall → Bool
  | .getCall _ => false
  | .postCall _ _ => true
  | .deleteCall _ => true

/-- The structured result handed back to Ansible: exit_json with a changed
flag, an optional message and optional repo_data; fail_json with a message
and an optional reason; or an exception that escaped main uncaught. -/
inductive Outcome where
  | exitJson : Bool → Option String → Option String → Outcome
  | failJson : String → Option PyExn → Outcome
  | uncaught : PyExn → Outcome
  deriving DecidableEq

/-- Whether the outcome reports changed=true. -/
def reports_changed : Outcome → Bool
  | .exitJson c _ _ => c
  | _ => false

/-- Whether the outcome is a structured fail_json failure. -/
def is_structured_failure : Outcome → Bool
  | .failJson _ _ => true
  | _ => false

/-- The required-when-present fields found empty, in source order
(main, lines 204-214). -/
def missing_fields (m : ModuleParams) : List String :=
  (if py_truthy m.bucket then [] else ["bucket"]) ++
  (if py_truthy m.endpoint then [] else ["endpoint"]) ++
  (if py_truthy m.access_key then [] else ["access_key"]) ++
  (if py_truthy m.secret_key then [] else ["secret_key"])

/-- The fail_json message of the validation failure (main, lines 216-219). -/
def validation_msg (m : ModuleParams) : String :=
  "required if state=present but not defined: " ++ String.intercalate ", " (missing_fields m)

/-- The settings comparison loop of main (lines 240-247): scan the desired
settings; a key also present in the remote settings whose stringified,
lowercased values differ means an update is needed (List.any stops at the
first mismatch, like the break). -/
def needs_update (ms cs : List (String × PyVal)) : Bool :=
  ms.any (fun kv =>
    match cs.lookup kv.1 with
    | some v => str_lower (py_str v) != str_lower (py_str kv.2)
    | none => false)

/-- The found branch of state=present (main, lines 227-247): index the
probe data by repo_name (a missing key raises KeyError, uncaught) and run
the comparison loop over the desired settings. -/
def process_repo_when_found (m : ModuleParams) (data : RepoBody) : Except PyExn Bool :=
  match data.lookup m.repo_name with
  | none => .error (.keyError m.repo_name)
  | some entry => .ok (needs_update (create_repo_data m).settings entry.settings)

/-- The shared try/except around create_repo and delete_repo (main, lines
252-257 and 266-271): RequestException (transport failure or
raise_for_status on a 4xx/5xx) becomes fail_json with msg and reason;
otherwise exit_json changed=true with the response body. -/
def mutate_and_exit (out : CallOutcome MutResp) : Outcome :=
  match out with
  | .transportFail d => .failJson "Request Failed" (some (.transportError d))
  | .resp r =>
      if raises_for_status r.status then
        .failJson "Request Failed" (some (.httpError r.status r.raw))
      else
        .exitJson true none (some r.raw)

/-- The part of main after the probe returned (source lines 223-278):
branch on state and on the probe result, issuing at most one mutating
call. Returns the Ansible outcome together with the trace of HTTP calls
issued so far (the probe GET included). -/
def run_after_probe (m : ModuleParams) (chk : ProbeOut) (net : Remote) :
    Outcome × List HttpCall :=
  let url := get_repo_url m
  if m.state = "present" then
    match (if chk.found then
             process_repo_when_found m (chk.data.getD [])
           else .ok true) with
    | .error e => (.uncaught e, [.getCall url])
    | .ok process_repo =>
        if process_repo then
          (mutate_and_exit net.postResp,
           [.getCall url, .postCall url (create_repo_data m)])
        else
          (.exitJson false
             (some ("Repo " ++ m.repo_name ++ " doesn\x27t need an update")) none,
           [.getCall url])
  else if chk.found then
    (mutate_and_exit net.deleteResp, [.getCall url, .deleteCall url])
  else
    (.exitJson false
       (some ("snapshot repository " ++ m.repo_name ++ " not found")) none,
     [.getCall url])

/-- main after argument parsing (source lines 201-278): validate when
state=present (failing before any network call), probe, then reconcile.
Returns the Ansible outcome together with the ordered trace of HTTP calls
issued. -/
def main_run (m : ModuleParams) (net : Remote) : Outcome × List HttpCall :=
  if m.state = "present" && !(missing_fields m).isEmpty then
    (.failJson (validation_msg m) none, [])
  else
    match check_repo_exists net with
    | .error e => (.uncaught e, [.getCall (get_repo_url m)])
    | .ok chk => run_after_probe m chk net

/-! Helper lemmas -/

/-- The validation guard in main_run fires exactly when state is present
and a required field is empty. -/
theorem validation_guard_eq (m : ModuleParams) :
    (m.state = "present" && !(missing_fields m).isEmpty) = true ↔
      (m.state = "present" ∧ missing_fields m ≠ []) := by
  simp [List.isEmpty_iff]

/-- Every branch of run_after_probe records the probe GET first. -/
theorem run_after_probe_trace (m : ModuleParams) (chk : ProbeOut) (net : Remote) :
    (run_after_probe m chk net).2 = [.getCall (get_repo_url m)] ∨
    (run_after_probe m chk net).2 =
      [.getCall (get_repo_url m), .postCall (get_repo_url m) (create_repo_data m)] ∨
    (run_after_probe m chk net).2 = [.getCall (get_repo_url m), .deleteCall (get_repo_url m)] := by
  unfold run_after_probe
  split
  · split
    · simp
    · split <;> simp
  · split <;> simp

/-- The trace of a full run is empty, the probe alone, or the probe
followed by a single mutating call. -/
theorem main_run_trace_cases (m : ModuleParams) (net : Remote) :
    (main_run m net).2 = [] ∨
    (main_run m net).2 = [.getCall (get_repo_url m)] ∨
    (main_run m net).2 =
      [.getCall (get_repo_url m), .postCall (get_repo_url m) (create_repo_data m)] ∨
    (main_run m net).2 = [.getCall (get_repo_url m), .deleteCall (get_repo_url m)] := by
  unfold main_run
  split
  · simp
  · split
    · simp
    · exact Or.inr (run_after_probe_trace m _ net)

/-- The trace is empty exactly when validation aborted the run. -/
theorem main_run_trace_empty_iff (m : ModuleParams) (net : Remote) :
    (main_run m net).2 = [] ↔ (m.state = "present" ∧ missing_fields m ≠ []) := by
  rw [← validation_guard_eq]
  unfold main_run
  split
  · simp_all
  · rename_i h
    constructor
    · intro hemp
      exfalso
      revert hemp
      split
      · simp
      · rename_i chk heq
        rcases run_after_probe_trace m chk net with ht | ht | ht <;> simp [ht]
    · intro hg
      exact absurd hg h


theorem needs_update_iff_exists (ms cs : List (String × PyVal)) :
    needs_update ms cs = true ↔
      ∃ kv ∈ ms, ∃ v, cs.lookup kv.1 = some v ∧
        str_lower (py_str v) ≠ str_lower (py_str kv.2) := by
  unfold needs_update
  rw [List.any_eq_true]
  constructor
  · rintro ⟨kv, hmem, hp⟩
    refine ⟨kv, hmem, ?_⟩
    revert hp
    cases hlk : cs.lookup kv.1 with
    | none => simp
    | some v =>
        intro hp
        exact ⟨v, rfl, by simpa using hp⟩
  · rintro ⟨kv, hmem, v, hlk, hne⟩
    exact ⟨kv, hmem, by simp [hlk, hne]⟩

theorem main_run_eval (m : ModuleParams) (net : Remote) (chk : ProbeOut)
    (hguard : ¬(m.state = "present" ∧ missing_fields m ≠ []))
    (hchk : check_repo_exists net = .ok chk) :
    main_run m net = run_after_probe m chk net := by
  have hg : (m.state = "present" && !(missing_fields m).isEmpty) = false := by
    cases hb : (m.state = "present" && !(missing_fields m).isEmpty) with
    | false => rfl
    | true => exact absurd ((validation_guard_eq m).mp hb) hguard
  unfold main_run
  rw [hchk, hg]
  rfl

theorem main_run_uncaught_eval (m : ModuleParams) (net : Remote) (e : PyExn)
    (hguard : ¬(m.state = "present" ∧ missing_fields m ≠ []))
    (hchk : check_repo_exists net = .error e) :
    main_run m net = (.uncaught e, [.getCall (get_repo_url m)]) := by
  have hg : (m.state = "present" && !(missing_fields m).isEmpty) = false := by
    cases hb : (m.state = "present" && !(missing_fields m).isEmpty) with
    | false => rfl
    | true => exact absurd ((validation_guard_eq m).mp hb) hguard
  unfold main_run
  rw [hchk, hg]
  rfl

theorem run_after_probe_present_found (m : ModuleParams) (net : Remote) (err : Bool)
    (body : RepoBody) (entry : RepoData)
    (hs : m.state = "present") (he : body.lookup m.repo_name = some entry) :
    run_after_probe m ⟨true, err, some body⟩ net =
      (if needs_update (create_repo_data m).settings entry.settings then
         (mutate_and_exit net.postResp,
          [.getCall (get_repo_url m), .postCall (get_repo_url m) (create_repo_data m)])
       else
         (.exitJson false
            (some ("Repo " ++ m.repo_name ++ " doesn\x27t need an update")) none,
          [.getCall (get_repo_url m)])) := by
  have hp : process_repo_when_found m body =
      .ok (needs_update (create_repo_data m).settings entry.settings) := by
    unfold process_repo_when_found
    rw [he]
  unfold run_after_probe
  rw [if_pos hs]
  show (match process_repo_when_found m body with
        | Except.error e => (Outcome.uncaught e, [HttpCall.getCall (get_repo_url m)])
        | Except.ok process_repo =>
            if process_repo then
              (mutate_and_exit net.postResp,
               [.getCall (get_repo_url m), .postCall (get_repo_url m) (create_repo_data m)])
            else
              (.exitJson false
                 (some ("Repo " ++ m.repo_name ++ " doesn\x27t need an update")) none,
               [.getCall (get_repo_url m)])) = _
  rw [hp]

theorem run_after_probe_present_notfound (m : ModuleParams) (net : Remote) (err : Bool)
    (d : Option RepoBody) (hs : m.state = "present") :
    run_after_probe m ⟨false, err, d⟩ net =
      (mutate_and_exit net.postResp,
       [.getCall (get_repo_url m), .postCall (get_repo_url m) (create_repo_data m)]) := by
  unfold run_after_probe
  rw [if_pos hs]
  rfl

theorem run_after_probe_absent_found (m : ModuleParams) (net : Remote) (err : Bool)
    (d : Option RepoBody) (hs : m.state ≠ "present") :
    run_after_probe m ⟨true, err, d⟩ net =
      (mutate_and_exit net.deleteResp,
       [.getCall (get_repo_url m), .deleteCall (get_repo_url m)]) := by
  unfold run_after_probe
  rw [if_neg hs]
  rfl

theorem run_after_probe_absent_notfound (m : ModuleParams) (net : Remote) (err : Bool)
    (d : Option RepoBody) (hs : m.state ≠ "present") :
    run_after_probe m ⟨false, err, d⟩ net =
      (.exitJson false
         (some ("snapshot repository " ++ m.repo_name ++ " not found")) none,
       [.getCall (get_repo_url m)]) := by
  unfold run_after_probe
  rw [if_neg hs]
  rfl

theorem mutate_and_exit_cases (out : CallOutcome MutResp) :
    (∃ e, mutate_and_exit out = .failJson "Request Failed" (some e)) ∨
    (∃ b, mutate_and_exit out = .exitJson true none (some b)) := by
  cases out with
  | transportFail d => exact Or.inl ⟨_, rfl⟩
  | resp r =>
      simp only [mutate_and_exit]
      by_cases h : raises_for_status r.status = true
      · rw [if_pos h]
        exact Or.inl ⟨_, rfl⟩
      · rw [if_neg h]
        exact Or.inr ⟨_, rfl⟩

theorem mutate_and_exit_success (r : MutResp) (h : raises_for_status r.status = false) :
    mutate_and_exit (.resp r) = .exitJson true none (some r.raw) := by
  simp only [mutate_and_exit]
  rw [h]
  rfl

theorem mutate_and_exit_failJson (out : CallOutcome MutResp) (s : String) (rsn : Option PyExn)
    (hf : mutate_and_exit out = .failJson s rsn) :
    s = "Request Failed" ∧ ∃ e, rsn = some e := by
  rcases mutate_and_exit_cases out with ⟨e, h⟩ | ⟨b, h⟩ <;> rw [h] at hf
  · injection hf with h1 h2
    exact ⟨h1.symm, e, h2.symm⟩
  · cases hf

theorem mutate_and_exit_ne_uncaught (out : CallOutcome MutResp) (e : PyExn) :
    mutate_and_exit out ≠ .uncaught e := by
  rcases mutate_and_exit_cases out with ⟨e', h⟩ | ⟨b, h⟩ <;> rw [h] <;> intro hf <;> cases hf

theorem run_after_probe_failJson (m : ModuleParams) (chk : ProbeOut) (net : Remote)
    (s : String) (rsn : Option PyExn)
    (h : (run_after_probe m chk net).1 = .failJson s rsn) :
    s = "Request Failed" ∧ ∃ e, rsn = some e := by
  revert h
  unfold run_after_probe
  split
  · split
    · intro h
      cases h
    · split
      · exact mutate_and_exit_failJson net.postResp s rsn
      · intro h
        cases h
  · split
    · exact mutate_and_exit_failJson net.deleteResp s rsn
    · intro h
      cases h

theorem run_after_probe_uncaught_trace (m : ModuleParams) (chk : ProbeOut) (net : Remote)
    (e : PyExn) (h : (run_after_probe m chk net).1 = .uncaught e) :
    (run_after_probe m chk net).2 = [.getCall (get_repo_url m)] := by
  revert h
  unfold run_after_probe
  split
  · split
    · intro _
      rfl
    · split
      · intro h
        exact absurd h (mutate_and_exit_ne_uncaught net.postResp e)
      · intro h
        cases h
  · split
    · intro h
      exact absurd h (mutate_and_exit_ne_uncaught net.deleteResp e)
    · intro h
      cases h

/-- Drop the credential keys from a settings map: ElasticSearch stores the
posted settings but never echoes access_key or secret_key back. -/
def erase_creds (s : List (String × PyVal)) : List (String × PyVal) :=
  s.filter (fun kv => kv.1 ≠ "access_key" && kv.1 ≠ "secret_key")

/-- A desired settings map never differs from its own credential-less echo. -/
theorem needs_update_echo (m : ModuleParams) :
    needs_update (create_repo_data m).settings
      (erase_creds (create_repo_data m).settings) = false := by
  simp [needs_update, erase_creds, create_repo_data, List.lookup]

/-! Concrete fixtures for the closed instantiations -/

/-- A fully populated, valid parameter set with state=present. -/
def exampleParams : ModuleParams :=
  { host := "es.local", port := 9200, bucket := .pyStr "logs",
    endpoint := .pyStr "s3.local", region := .pyStr "us-east-1",
    access_key := .pyStr "AK", secret_key := .pyStr "SK",
    max_retries := 3, protocol := "http", state := "present",
    repo_name := "s3snapshots", path_style_access := true, compress := true }

/-- A remote whose probe finds the repository with a single stored setting
compress="true", and whose mutating calls succeed. -/
def foundRemote : Remote :=
  { getResp := .resp
      { status := 200,
        body := [("s3snapshots",
          { type_ := "s3", settings := [("compress", .pyStr "true")] })],
        raw := "" },
    postResp := .resp { status := 200, raw := "ack" },
    deleteResp := .resp { status := 200, raw := "ack" } }

/-- A remote whose probe returns 404 and whose mutating calls succeed. -/
def notFoundRemote : Remote :=
  { getResp := .resp { status := 404, body := [], raw := "" },
    postResp := .resp { status := 200, raw := "ack" },
    deleteResp := .resp { status := 200, raw := "ack" } }

/-- A remote whose probe returns HTTP 500. -/
def probe500Remote : Remote :=
  { getResp := .resp { status := 500, body := [], raw := "boom" },
    postResp := .resp { status := 200, raw := "ack" },
    deleteResp := .resp { status := 200, raw := "ack" } }

/-- A remote whose probe returns HTTP 201. -/
def probe201Remote : Remote :=
  { getResp := .resp { status := 201, body := [], raw := "" },
    postResp := .resp { status := 200, raw := "ack" },
    deleteResp := .resp { status := 200, raw := "ack" } }

/-! The claims -/

/-- C5, counterexample: on an HTTP 201 probe response — a status that is
neither 200 nor 404 — check_repo_exists does NOT fail with an error
carrying the status and body; raise_for_status only raises for 4xx/5xx, so
the function returns found=false with the error flag set, contradicting
the claim that any status other than 200/404 fails. -/
theorem probe_201_not_error :
    check_repo_exists_resp { status := 201, body := [], raw := "" } =
      .ok { found := false, error := true, data := none } := rfl

/-- C5, amended: the probe issues its GET against
protocol://host:port/_snapshot/repo_name; HTTP 200 reports found with the
parsed body, 404 reports not found, a 4xx/5xx other than 404 raises an
error carrying the status and body, and any remaining status (non-200 2xx,
1xx, 3xx) reports not found with only the internal error flag set. -/
theorem probe_status_classification (m : ModuleParams) (net : Remote) (r : GetResp) :
    get_repo_url m =
      m.protocol ++ "://" ++ m.host ++ ":" ++ toString m.port ++ "/_snapshot/" ++ m.repo_name ∧
    (¬(m.state = "present" ∧ missing_fields m ≠ []) →
      (main_run m net).2.head? = some (.getCall (get_repo_url m))) ∧
    (r.status = 200 →
      check_repo_exists_resp r = .ok { found := true, error := false, data := some r.body }) ∧
    (r.status = 404 →
      check_repo_exists_resp r = .ok { found := false, error := false, data := none }) ∧
    (r.status ≠ 200 → r.status ≠ 404 → 400 ≤ r.status → r.status < 600 →
      check_repo_exists_resp r = .error (.httpError r.status r.raw)) ∧
    (r.status ≠ 200 → r.status ≠ 404 → ¬(400 ≤ r.status ∧ r.status < 600) →
      check_repo_exists_resp r = .ok { found := false, error := true, data := none }) := by
  refine ⟨rfl, ?_, ?_, ?_, ?_, ?_⟩
  · intro hguard
    rcases main_run_trace_cases m net with ht | ht | ht | ht
    · exact absurd ((main_run_trace_empty_iff m net).mp ht) hguard
    all_goals rw [ht]; rfl
  · intro h200
    unfold check_repo_exists_resp
    rw [if_pos h200]
  · intro h404
    unfold check_repo_exists_resp
    rw [if_neg (by omega : ¬r.status = 200), if_pos h404]
  · intro h200 h404 h400 h600
    have hrs : raises_for_status r.status = true := by
      simp only [raises_for_status, Bool.and_eq_true, decide_eq_true_eq]
      omega
    unfold check_repo_exists_resp
    rw [if_neg h200, if_neg h404, if_pos hrs]
  · intro h200 h404 hnr
    have hrs : raises_for_status r.status = false := by
      cases hb : raises_for_status r.status with
      | false => rfl
      | true =>
          exact absurd (by simpa [raises_for_status] using hb) hnr
    unfold check_repo_exists_resp
    rw [if_neg h200, if_neg h404, hrs]
    rfl

/-- C5 witness: the amended classification evaluated on a concrete 404
response. -/
theorem probe_status_classification_witness :
    check_repo_exists_resp { status := 404, body := [], raw := "" } =
      .ok { found := false, error := false, data := none } :=
  (probe_status_classification exampleParams notFoundRemote
    { status := 404, body := [], raw := "" }).2.2.2.1 rfl

/-- C9: the error flag computed by the probe is never consulted — a probe
status that is neither 200 nor 404 and does not raise in raise_for_status
(such as 201) yields found=false with error=true, and the run then treats
the repository as missing: state=present issues the create POST,
state=absent exits changed=false with the not-found message. -/
theorem error_flag_ignored (m : ModuleParams) (net : Remote) (r : GetResp)
    (hg : net.getResp = .resp r)
    (h200 : r.status ≠ 200) (h404 : r.status ≠ 404)
    (hnr : ¬(400 ≤ r.status ∧ r.status < 600)) :
    check_repo_exists net = .ok { found := false, error := true, data := none } ∧
    (m.state = "present" → missing_fields m = [] →
      main_run m net =
        (mutate_and_exit net.postResp,
         [.getCall (get_repo_url m), .postCall (get_repo_url m) (create_repo_data m)])) ∧
    (m.state = "absent" →
      main_run m net =
        (.exitJson false
           (some ("snapshot repository " ++ m.repo_name ++ " not found")) none,
         [.getCall (get_repo_url m)])) := by
  have hrs : raises_for_status r.status = false := by
    cases hb : raises_for_status r.status with
    | false => rfl
    | true => exact absurd (by simpa [raises_for_status] using hb) hnr
  have hchk : check_repo_exists net = .ok { found := false, error := true, data := none } := by
    have h1 : check_repo_exists net = check_repo_exists_resp r := by
      unfold check_repo_exists
      rw [hg]
    rw [h1]
    unfold check_repo_exists_resp
    rw [if_neg h200, if_neg h404, hrs]
    rfl
  refine ⟨hchk, ?_, ?_⟩
  · intro hs hv
    rw [main_run_eval m net _ (by simp [hv]) hchk]
    exact run_after_probe_present_notfound m net true none hs
  · intro hs
    have hp : m.state ≠ "present" := by
      rw [hs]
      decide
    rw [main_run_eval m net _ (fun hc => hp hc.1) hchk]
    exact run_after_probe_absent_notfound m net true none hp

/-- C9 witness: the 201-probe remote with valid present parameters issues
the create POST. -/
theorem error_flag_ignored_witness :
    main_run exampleParams probe201Remote =
      (mutate_and_exit probe201Remote.postResp,
       [.getCall (get_repo_url exampleParams),
        .postCall (get_repo_url exampleParams) (create_repo_data exampleParams)]) :=
  ((error_flag_ignored exampleParams probe201Remote
    { status := 201, body := [], raw := "" }
    rfl (by decide) (by decide) (by decide)).2.1) rfl rfl

/-- C10: keys present only in the remote settings never influence the
update decision — prepending to the remote map a binding whose key does
not occur among the desired keys leaves needs_update unchanged, because
the comparison loop iterates over the desired keys only. -/
theorem remote_only_keys_ignored (ms cs : List (String × PyVal)) (k : String) (v : PyVal)
    (hk : k ∉ ms.map Prod.fst) :
    needs_update ms ((k, v) :: cs) = needs_update ms cs := by
  unfold needs_update
  induction ms with
  | nil => rfl
  | cons kv t ih =>
      simp only [List.map_cons, List.mem_cons, not_or] at hk
      obtain ⟨hk1, hk2⟩ := hk
      simp only [List.any_cons]
      rw [ih (by simpa using hk2)]
      have hlk : ((k, v) :: cs).lookup kv.1 = cs.lookup kv.1 := by
        have hb : (kv.1 == k) = false := beq_eq_false_iff_ne.mpr (fun h => hk1 h.symm)
        simp [List.lookup, hb]
      rw [hlk]

/-- C10 witness: a remote-only key "b" prepended to the remote map leaves
the decision for the desired map unchanged. -/
theorem remote_only_keys_ignored_witness :
    needs_update [("a", .pyInt 1)] [("b", .pyStr "x")] =
      needs_update [("a", .pyInt 1)] [] :=
  remote_only_keys_ignored [("a", .pyInt 1)] [] "b" (.pyStr "x") (by decide)

/-- C3: with state=absent, a probe that does not find the repository leads
to changed=false with the informational not-found message and a trace with
no mutating call; a probe that finds it leads to a trace whose only
mutating call is the one DELETE against the repository URL, and when that
DELETE succeeds the run reports changed=true. -/
theorem absent_reconcile (m : ModuleParams) (net : Remote) (hs : m.state = "absent") :
    (∀ chk, check_repo_exists net = .ok chk → chk.found = false →
      main_run m net =
        (.exitJson false
           (some ("snapshot repository " ++ m.repo_name ++ " not found")) none,
         [.getCall (get_repo_url m)])) ∧
    (∀ chk r, check_repo_exists net = .ok chk → chk.found = true →
      net.deleteResp = .resp r → raises_for_status r.status = false →
      main_run m net =
        (.exitJson true none (some r.raw),
         [.getCall (get_repo_url m), .deleteCall (get_repo_url m)])) := by
  have hp : m.state ≠ "present" := by
    rw [hs]
    decide
  have hguard : ¬(m.state = "present" ∧ missing_fields m ≠ []) := fun hc => hp hc.1
  constructor
  · intro chk hchk hf
    obtain ⟨found, err, d⟩ := chk
    simp only at hf
    subst hf
    rw [main_run_eval m net _ hguard hchk]
    exact run_after_probe_absent_notfound m net err d hp
  · intro chk r hchk hf hd hr
    obtain ⟨found, err, d⟩ := chk
    simp only at hf
    subst hf
    rw [main_run_eval m net _ hguard hchk,
        run_after_probe_absent_found m net err d hp, hd,
        mutate_and_exit_success r hr]

/-- C3 witness: the found and not-found deletion scenarios on concrete
remotes. -/
theorem absent_reconcile_witness :
    main_run { exampleParams with state := "absent" } notFoundRemote =
      (.exitJson false (some "snapshot repository s3snapshots not found") none,
       [.getCall (get_repo_url exampleParams)]) ∧
    main_run { exampleParams with state := "absent" } foundRemote =
      (.exitJson true none (some "ack"),
       [.getCall (get_repo_url exampleParams), .deleteCall (get_repo_url exampleParams)]) := by
  constructor
  · exact (absent_reconcile { exampleParams with state := "absent" } notFoundRemote rfl).1
      { found := false, error := false, data := none } rfl rfl
  · exact (absent_reconcile { exampleParams with state := "absent" } foundRemote rfl).2
      { found := true, error := false,
        data := some [("s3snapshots", { type_ := "s3", settings := [("compress", .pyStr "true")] })] }
      { status := 200, raw := "ack" } rfl rfl rfl rfl

/-- C4: every run issues at most one mutating HTTP call, and the probe GET
appears in the trace exactly when state=present validation did not fail
first. -/
theorem at_most_one_mutating_call (m : ModuleParams) (net : Remote) :
    (main_run m net).2.countP is_mutating ≤ 1 ∧
    (HttpCall.getCall (get_repo_url m) ∈ (main_run m net).2 ↔
      ¬(m.state = "present" ∧ missing_fields m ≠ [])) := by
  rcases main_run_trace_cases m net with ht | ht | ht | ht
  · refine ⟨by simp [ht], ?_⟩
    rw [ht]
    simp only [List.not_mem_nil, false_iff, not_not]
    exact (main_run_trace_empty_iff m net).mp ht
  all_goals
    refine ⟨by simp [ht, List.countP_cons, is_mutating], ?_⟩
    rw [ht]
    constructor
    · intro _ hgd
      have h0 := (main_run_trace_empty_iff m net).mpr hgd
      rw [ht] at h0
      cases h0
    · intro _
      exact List.mem_cons_self _ _

/-- C2: validation runs only for state=present and fails — before any
network call, with an empty trace — exactly when one of bucket, endpoint,
access_key, secret_key is empty, its message listing exactly the names of
the empty fields; with state=absent no validation failure is ever
produced, so empty credentials are accepted. -/
theorem validation_present_only (m : ModuleParams) (net : Remote) :
    (m.state = "present" →
      (missing_fields m ≠ [] ↔
        main_run m net = (.failJson (validation_msg m) none, []))) ∧
    (∀ f, f ∈ missing_fields m ↔
      ((f = "bucket" ∧ py_truthy m.bucket = false) ∨
       (f = "endpoint" ∧ py_truthy m.endpoint = false) ∨
       (f = "access_key" ∧ py_truthy m.access_key = false) ∨
       (f = "secret_key" ∧ py_truthy m.secret_key = false))) ∧
    (m.state = "absent" → ∀ s, (main_run m net).1 ≠ .failJson s none) := by
  refine ⟨?_, ?_, ?_⟩
  · intro hs
    constructor
    · intro hne
      have hb : (m.state = "present" && !(missing_fields m).isEmpty) = true :=
        (validation_guard_eq m).mpr ⟨hs, hne⟩
      unfold main_run
      rw [hb]
      rfl
    · intro heq
      have h2 : (main_run m net).2 = [] := by
        rw [heq]
      exact ((main_run_trace_empty_iff m net).mp h2).2
  · intro f
    unfold missing_fields
    by_cases h1 : py_truthy m.bucket <;> by_cases h2 : py_truthy m.endpoint <;>
      by_cases h3 : py_truthy m.access_key <;> by_cases h4 : py_truthy m.secret_key <;>
      simp [h1, h2, h3, h4]
  · intro hs s
    have hp : m.state ≠ "present" := by
      rw [hs]
      decide
    have hguard : ¬(m.state = "present" ∧ missing_fields m ≠ []) := fun hc => hp hc.1
    cases hchk : check_repo_exists net with
    | error e =>
        rw [main_run_uncaught_eval m net e hguard hchk]
        intro h
        cases h
    | ok chk =>
        rw [main_run_eval m net chk hguard hchk]
        intro h
        obtain ⟨h1, e, h2⟩ := run_after_probe_failJson m chk net s none h
        cases h2

/-- The example parameters with bucket and secret_key emptied. -/
def emptyFieldParams : ModuleParams :=
  { exampleParams with bucket := .pyNone, secret_key := .pyStr "" }

/-- The example parameters with state=absent and no credentials. -/
def absentNoCredParams : ModuleParams :=
  { exampleParams with state := "absent", access_key := .pyNone, secret_key := .pyNone }

/-- C2 witness: present with empty bucket and secret_key fails with the
message naming exactly those two fields and an empty trace; absent with
empty credentials never produces the validation failure. -/
theorem validation_present_only_witness :
    main_run emptyFieldParams notFoundRemote =
      (.failJson "required if state=present but not defined: bucket, secret_key" none, []) ∧
    (main_run absentNoCredParams notFoundRemote).1 ≠
      .failJson "required if state=present but not defined: access_key, secret_key" none := by
  constructor
  · have h := ((validation_present_only emptyFieldParams notFoundRemote).1
      rfl).mp (by decide)
    simpa using h
  · exact (validation_present_only absentNoCredParams notFoundRemote).2.2 rfl _

/-- C1: with state=present and a found repository, the create POST is
issued if and only if some key present in both the desired and the remote
settings has differing stringified, lowercased values (the scan stops at
the first mismatch); in particular remote compress="true" against desired
compress=false is such a mismatch. -/
theorem needs_update_triggers_create (m : ModuleParams) (net : Remote) (r : GetResp)
    (entry : RepoData)
    (hs : m.state = "present") (hv : missing_fields m = [])
    (hg : net.getResp = .resp r) (h200 : r.status = 200)
    (he : r.body.lookup m.repo_name = some entry) :
    ((main_run m net).2.any is_mutating
        = needs_update (create_repo_data m).settings entry.settings) ∧
    (needs_update (create_repo_data m).settings entry.settings = true ↔
      ∃ kv ∈ (create_repo_data m).settings, ∃ v,
        entry.settings.lookup kv.1 = some v ∧
        str_lower (py_str v) ≠ str_lower (py_str kv.2)) ∧
    (∀ cs : List (String × PyVal), cs.lookup "compress" = some (.pyStr "true") →
      m.compress = false → needs_update (create_repo_data m).settings cs = true) := by
  have hchk : check_repo_exists net = .ok { found := true, error := false, data := some r.body } := by
    have h1 : check_repo_exists net = check_repo_exists_resp r := by
      unfold check_repo_exists
      rw [hg]
    rw [h1]
    unfold check_repo_exists_resp
    rw [if_pos h200]
  refine ⟨?_, needs_update_iff_exists _ _, ?_⟩
  · rw [main_run_eval m net _ (by simp [hv]) hchk,
        run_after_probe_present_found m net false r.body entry hs he]
    by_cases hnu : needs_update (create_repo_data m).settings entry.settings = true
    · rw [if_pos hnu, hnu]
      simp [is_mutating]
    · rw [if_neg hnu]
      rw [Bool.not_eq_true] at hnu
      rw [hnu]
      simp [is_mutating]
  · intro cs hcs hcomp
    rw [needs_update_iff_exists]
    refine ⟨("compress", .pyBool m.compress), ?_, .pyStr "true", hcs, ?_⟩
    · simp [create_repo_data]
    · rw [hcomp]
      decide

/-- C1 witness: the concrete found remote stores compress="true"; with
desired compress=false the run issues a mutating call. -/
theorem needs_update_triggers_create_witness :
    (main_run { exampleParams with compress := false } foundRemote).2.any is_mutating = true := by
  have h := (needs_update_triggers_create { exampleParams with compress := false } foundRemote
    { status := 200,
      body := [("s3snapshots", { type_ := "s3", settings := [("compress", .pyStr "true")] })],
      raw := "" }
    { type_ := "s3", settings := [("compress", .pyStr "true")] }
    rfl rfl rfl rfl rfl)
  rw [h.1]
  exact h.2.2 [("compress", .pyStr "true")] rfl rfl

/-- C7: credential-change blindness — when the remote settings contain
neither access_key nor secret_key and every other compared setting already
matches, replacing only the credentials in the descriptor still yields
needsUpdate=false, and the run exits changed=false without issuing any
mutating call. -/
theorem credential_change_blind (m : ModuleParams) (ak sk : PyVal) (net : Remote)
    (r : GetResp) (entry : RepoData)
    (hak : entry.settings.lookup "access_key" = none)
    (hsk : entry.settings.lookup "secret_key" = none)
    (hbase : needs_update (create_repo_data m).settings entry.settings = false)
    (hs : m.state = "present")
    (hv : missing_fields { m with access_key := ak, secret_key := sk } = [])
    (hg : net.getResp = .resp r) (h200 : r.status = 200)
    (he : r.body.lookup m.repo_name = some entry) :
    needs_update (create_repo_data { m with access_key := ak, secret_key := sk }).settings
        entry.settings = false ∧
    main_run { m with access_key := ak, secret_key := sk } net =
      (.exitJson false
         (some ("Repo " ++ m.repo_name ++ " doesn\x27t need an update")) none,
       [.getCall (get_repo_url m)]) := by
  have h1 : needs_update (create_repo_data { m with access_key := ak, secret_key := sk }).settings
      entry.settings = false := by
    simp only [needs_update, create_repo_data, List.any_cons, List.any_nil] at hbase ⊢
    rw [hak, hsk] at hbase ⊢
    simpa using hbase
  have hchk : check_repo_exists net = .ok { found := true, error := false, data := some r.body } := by
    have h2 : check_repo_exists net = check_repo_exists_resp r := by
      unfold check_repo_exists
      rw [hg]
    rw [h2]
    unfold check_repo_exists_resp
    rw [if_pos h200]
  refine ⟨h1, ?_⟩
  rw [main_run_eval { m with access_key := ak, secret_key := sk } net _ (by simp [hv]) hchk,
      run_after_probe_present_found { m with access_key := ak, secret_key := sk } net false
        r.body entry hs he,
      if_neg (by simp [h1] :
        ¬(needs_update (create_repo_data { m with access_key := ak, secret_key := sk }).settings
            entry.settings = true))]
  rfl

/-- The body a faithful remote echoes for the example parameters: the
posted settings with the credentials removed. -/
def echoBody : RepoBody :=
  [("s3snapshots",
    { type_ := "s3", settings := erase_creds (create_repo_data exampleParams).settings })]

/-- A remote that echoes the stored example settings without credentials. -/
def echoFixture : Remote :=
  { getResp := .resp { status := 200, body := echoBody, raw := "" },
    postResp := .resp { status := 200, raw := "ack" },
    deleteResp := .resp { status := 200, raw := "ack" } }

/-- C7 witness: swapping the access key against a remote that stores no
credentials and matches otherwise does not trigger an update. -/
theorem credential_change_blind_witness :
    main_run { exampleParams with access_key := .pyStr "AK2", secret_key := .pyStr "SK" } echoFixture =
      (.exitJson false (some "Repo s3snapshots doesn\x27t need an update") none,
       [.getCall (get_repo_url exampleParams)]) := by
  exact (credential_change_blind exampleParams (.pyStr "AK2") (.pyStr "SK") echoFixture
    { status := 200, body := echoBody, raw := "" }
    { type_ := "s3", settings := erase_creds (create_repo_data exampleParams).settings }
    rfl rfl (by decide) rfl rfl rfl rfl rfl).2

/-- Modelled from the spec (section 6, wire protocol): after a successful
create, a faithful remote stores the posted settings and echoes everything
except the credentials back on the next probe, keyed by the repository
name. -/
def echo_remote (m : ModuleParams) (post2 del2 : CallOutcome MutResp) : Remote :=
  { getResp := .resp
      { status := 200,
        body := [(m.repo_name,
          { type_ := "s3", settings := erase_creds (create_repo_data m).settings })],
        raw := "" },
    postResp := post2, deleteResp := del2 }

/-- C8: idempotence — if a first reconcile with state=present succeeded,
then a second run with the unchanged descriptor against the remote that
now stores the posted settings (echoing everything except credentials)
exits changed=false without issuing any mutating call. -/
theorem reconcile_idempotent (m : ModuleParams) (net1 : Remote) (p2 d2 : CallOutcome MutResp)
    (hs : m.state = "present") (hv : missing_fields m = [])
    (_hfirst : ∃ ack, (main_run m net1).1 = .exitJson true none (some ack)) :
    main_run m (echo_remote m p2 d2) =
      (.exitJson false
         (some ("Repo " ++ m.repo_name ++ " doesn\x27t need an update")) none,
       [.getCall (get_repo_url m)]) := by
  have hchk : check_repo_exists (echo_remote m p2 d2) =
      .ok { found := true, error := false,
            data := some [(m.repo_name,
              { type_ := "s3", settings := erase_creds (create_repo_data m).settings })] } := by
    unfold check_repo_exists echo_remote
    rfl
  rw [main_run_eval m _ _ (by simp [hv]) hchk,
      run_after_probe_present_found m _ false _
        { type_ := "s3", settings := erase_creds (create_repo_data m).settings } hs (by simp),
      if_neg (by simp [needs_update_echo m] :
        ¬(needs_update (create_repo_data m).settings
            (erase_creds (create_repo_data m).settings) = true))]

/-- C8 witness: a successful first run against an empty remote followed by
the no-op second run against the echoing remote. -/
theorem reconcile_idempotent_witness :
    main_run exampleParams
        (echo_remote exampleParams (.resp { status := 200, raw := "ack" })
          (.resp { status := 200, raw := "ack" })) =
      (.exitJson false (some "Repo s3snapshots doesn\x27t need an update") none,
       [.getCall (get_repo_url exampleParams)]) := by
  have h := reconcile_idempotent exampleParams notFoundRemote
    (.resp { status := 200, raw := "ack" }) (.resp { status := 200, raw := "ack" })
    rfl rfl ⟨"ack", rfl⟩
  simpa using h

/-- C6, counterexample: a probe answered with HTTP 500 — a failure raised
during the probe — is not reported as a structured fail_json result with a
message and a reason: check_repo_exists is called outside any try/except,
so the HTTPError escapes main uncaught. -/
theorem probe_failure_not_structured :
    (main_run exampleParams probe500Remote).1 = .uncaught (.httpError 500 "boom") ∧
    is_structured_failure (main_run exampleParams probe500Remote).1 = false := by
  constructor <;> rfl

/-- C6, amended: every failure aborts the run at once and nothing is
reported as changed; validation failures and mutating-call failures are
the only structured fail_json results (validation with its message, no
reason and an empty trace; request failures with msg="Request Failed" and
the exception as reason), while failures raised during the probe propagate
as uncaught exceptions with only the probe call issued. -/
theorem failure_policy (m : ModuleParams) (net : Remote) :
    (∀ s rsn, (main_run m net).1 = .failJson s rsn →
      (rsn = none ∧ s = validation_msg m ∧ (main_run m net).2 = []) ∨
      (s = "Request Failed" ∧ ∃ e, rsn = some e)) ∧
    (∀ e, (main_run m net).1 = .uncaught e →
      (main_run m net).2 = [.getCall (get_repo_url m)]) ∧
    (∀ s rsn, (main_run m net).1 = .failJson s rsn →
      reports_changed (main_run m net).1 = false) ∧
    (∀ e, (main_run m net).1 = .uncaught e →
      reports_changed (main_run m net).1 = false) := by
  refine ⟨?_, ?_, ?_, ?_⟩
  case refine_3 =>
    intro s rsn h
    rw [h]
    rfl
  case refine_4 =>
    intro e h
    rw [h]
    rfl
  all_goals
    by_cases hguard : m.state = "present" ∧ missing_fields m ≠ []
  · -- validation failure branch of the fail_json conjunct
    have hrun : main_run m net = (.failJson (validation_msg m) none, []) := by
      unfold main_run
      rw [(validation_guard_eq m).mpr hguard]
      rfl
    intro s rsn h
    rw [hrun] at h
    injection h with h1 h2
    exact Or.inl ⟨h2.symm, h1.symm, by rw [hrun]⟩
  · cases hchk : check_repo_exists net with
    | error e =>
        rw [main_run_uncaught_eval m net e hguard hchk]
        intro s rsn h
        cases h
    | ok chk =>
        rw [main_run_eval m net chk hguard hchk]
        intro s rsn h
        exact Or.inr (run_after_probe_failJson m chk net s rsn h)
  · -- uncaught conjunct, validation case: outcome is fail_json, vacuous
    have hrun : main_run m net = (.failJson (validation_msg m) none, []) := by
      unfold main_run
      rw [(validation_guard_eq m).mpr hguard]
      rfl
    intro e h
    rw [hrun] at h
    cases h
  · cases hchk : check_repo_exists net with
    | error e' =>
        rw [main_run_uncaught_eval m net e' hguard hchk]
        intro e _
        rfl
    | ok chk =>
        rw [main_run_eval m net chk hguard hchk]
        exact fun e h => run_after_probe_uncaught_trace m chk net e h

/-- C6 witness: the amended policy applied to a concrete validation
failure, whose structured result carries the message and no reason with an
empty trace. -/
theorem failure_policy_witness :
    (none : Option PyExn) = none ∧
    "required if state=present but not defined: bucket, secret_key" =
      validation_msg emptyFieldParams ∧
    (main_run emptyFieldParams notFoundRemote).2 = [] := by
  have h := (failure_policy emptyFieldParams notFoundRemote).1
    "required if state=present but not defined: bucket, secret_key" none rfl
  rcases h with h | ⟨h1, e, h2⟩
  · exact h
  · exact absurd h1 (by decide)

/-- C4 witness: the concrete found remote run issues at most one mutating
call and its trace contains the probe GET. -/
theorem at_most_one_mutating_call_witness :
    (main_run exampleParams foundRemote).2.countP is_mutating ≤ 1 :=
  (at_most_one_mutating_call exampleParams foundRemote).1
